import Mathlib

/-!
Verification of the incremental mirror-and-grade engine of the
`autogradinglean` repository, as a shallow embedding in Lean.

The embedding translates, faithfully to the Python source:

* `src/autogradinglean/base/base.py`
  - `GitHubClassroomBase._run_command_base`       → `run_command_base`
  - `GitHubClassroomBase._run_gh_api_command_base`→ `run_gh_api_command_base`
* `src/autogradinglean/base/assignment.py`
  - `GitHubAssignment._get_page`                  → `get_page`
  - `GitHubAssignment._get_changed_repos`         → `get_changed_repos`
  - `GitHubAssignment._get_student_repo`          → `get_student_repo`
  - `GitHubAssignment.get_student_repos`          → `get_student_repos`
  - `GitHubAssignment._update_student_grade`      → `update_student_grade`
  - `GitHubAssignment._grade_repo`                → `grade_repo`
  - `GitHubAssignment.run_autograding`            → `run_autograding`
  - `GitHubAssignment._save_grades`               → `save_grades`
* `src/autogradinglean/lean3/assignment.py`
  - `GitHubAssignmentLean3._run_grading_command`  → `run_grading_command`

Modelling conventions:
* a subprocess invocation is represented by the `ProcResult` the operating
  system returns for it (return code, stdout, stderr); the environment of a
  run supplies one `ProcResult` per external call;
* Python exceptions are `Except RunError`: a function that can raise returns
  `.error e`, and a caller that does not catch propagates it;
* a pandas `DataFrame` is a `List` of row structures in row order; positional
  row indices are list positions (the frames here carry the default
  `RangeIndex`); a missing value (`NaN` / absent key) is `none`;
* the `ThreadPoolExecutor` / `ProcessPoolExecutor` +`as_completed` loops
  collect independent per-row results and apply them sequentially; they are
  modelled by sequential folds in row order (one admissible completion
  order); an exception raised by `future.result()` aborts the collecting
  loop, which the model renders as the fold returning `.error`.
-/

/-! ### String helpers

Structural (kernel-reducible) models of the Python string operations used by
the source: `sep.split`, `str.strip`, and the substring test `in`.
-/

/-- One step of Python `str.split(sep)` for a one-character separator:
accumulate the current field (reversed) and cut at each separator. -/
def splitOnCharGo (sep : Char) : List Char → List Char → List (List Char)
  | [], acc => [acc.reverse]
  | c :: cs, acc =>
    if c == sep then acc.reverse :: splitOnCharGo sep cs []
    else splitOnCharGo sep cs (c :: acc)

/-- Python `s.split(sep)` for a one-character separator `sep`. -/
def strSplitOn (s : String) (sep : Char) : List String :=
  (splitOnCharGo sep s.data []).map (fun l => String.mk l)

/-- Python `s.strip()`: drop leading and trailing whitespace. -/
def strStrip (s : String) : String :=
  String.mk (((s.data.dropWhile Char.isWhitespace).reverse.dropWhile
    Char.isWhitespace).reverse)

/-- Does `pat` match at the head of `l`? (helper for the substring test). -/
def matchesAt : List Char → List Char → Bool
  | [], _ => true
  | _ :: _, [] => false
  | p :: ps, c :: cs => p == c && matchesAt ps cs

/-- Does `pat` occur as a contiguous run inside `l`? -/
def occursIn (pat : List Char) : List Char → Bool
  | [] => matchesAt pat []
  | c :: cs => matchesAt pat (c :: cs) || occursIn pat cs

/-- Python `pat in s` (contiguous substring test). -/
def strContains (s pat : String) : Bool :=
  occursIn pat.data s.data

/-- Python `full_name.split("/")[-1]`: the short repository name. -/
def shortName (fullName : String) : String :=
  (strSplitOn fullName '/').getLastD ""

/-! ### Data model

Row structures for the persisted tables and the per-call environment. -/

/-- The outcome the operating system reports for one subprocess invocation
(`subprocess.run(..., capture_output=True, text=True, check=False)`). -/
structure ProcResult where
  returncode : Int
  stdout : String
  stderr : String
deriving DecidableEq

/-- One accepted-assignment record fetched from the remote platform:
`repository.full_name`, `students[0].login`, and `commit_count` (the source
reads it with `submission.get("commit_count", 0)`, so the default 0 is
already folded in here). -/
structure Submission where
  repoFullName : String
  login : String
  commitCount : Nat
deriving DecidableEq

/-- One row of `commit_data.csv` (the commit ledger): columns
`student_repo_name, login, commit_count, last_commit_date, last_commit_time,
last_commit_author`.  The last three are `none` when the row was written
without them (the `git log` output was empty), which pandas reads as `NaN`. -/
structure CommitRow where
  student_repo_name : String
  login : String
  commit_count : Nat
  last_commit_date : Option String
  last_commit_time : Option String
  last_commit_author : Option String
deriving DecidableEq

/-- One row of `grades.csv` (the grade table): columns `github_username,
grade, commit_count, last_commit_date, last_commit_time, last_commit_author,
manual_grade, comment`; `manual_grade` and `comment` are nullable. -/
structure GradeRow where
  github_username : String
  grade : Nat
  commit_count : Nat
  last_commit_date : Option String
  last_commit_time : Option String
  last_commit_author : Option String
  manual_grade : Option Nat
  comment : Option String
deriving DecidableEq

/-- The `new_row` dict built by `_update_student_grade`: exactly the six keys
`github_username, grade, commit_count, last_commit_date, last_commit_time,
last_commit_author` (no manual grade, no comment). -/
structure NewGradeData where
  github_username : String
  grade : Nat
  commit_count : Nat
  last_commit_date : Option String
  last_commit_time : Option String
  last_commit_author : Option String
deriving DecidableEq

/-- One row of the classroom's merged student data (`df_student_data`) as
`_save_grades` consumes it: `identifier`, `github_username` and the
configured candidate-id column (nullable; `_save_grades` drops rows whose
candidate id `isna()`).  The dropped `github_id`/`name` columns and the
institution output columns are not observed by any claim and are omitted. -/
structure StudentRow where
  identifier : String
  github_username : String
  candidate_id : Option String
deriving DecidableEq

/-- One row of the emitted grade report: the merge of a student row with a
grade row after `_save_grades` dropped the `grade`, `manual_grade`,
`github_id` and `name` columns and added `final_grade` (nullable: it is only
assigned on rows passing the author condition). -/
structure ReportRow where
  identifier : String
  github_username : String
  commit_count : Nat
  last_commit_date : Option String
  last_commit_time : Option String
  last_commit_author : Option String
  comment : Option String
  final_grade : Option Nat
deriving DecidableEq

/-- The environment `_get_student_repo` runs one repository against:
whether a local working copy already exists (`student_repo_path.exists()`),
the result of the mirror subprocess (`git pull` if it exists, else
`git clone`), and the result of the `git log -1 --format=%cd,%an ...
src/assignment.lean` subprocess. -/
structure RepoEnv where
  localCopyExists : Bool
  mirrorProc : ProcResult
  gitLogProc : ProcResult
deriving DecidableEq

/-- The Python exceptions the embedded fragment can raise.
`commandFailed c rc` is `_run_command_base`'s
`RuntimeError(f"Command {command} failed with return code {returncode}")`;
`ghApiFailed` is `_run_gh_api_command_base`'s
`RuntimeError("Failed to run GitHub API command.")`;
`valueError` is the `ValueError` of the 3-tuple unpacking of
`git_log_result.strip().split(",")` in `_get_student_repo`. -/
inductive RunError where
  | commandFailed (command : String) (returncode : Int)
  | ghApiFailed
  | valueError
deriving DecidableEq

/-! ### base.py: subprocess helpers -/

/-- `GitHubClassroomBase._run_command_base` (base.py:38-51).  Despite the
docstring of its wrapper `_run_command` ("Returns None on error or the
stdout"), the source *raises* `RuntimeError` whenever the subprocess exits
non-zero, and returns the stdout otherwise. -/
def run_command_base (command : String) (res : ProcResult) : Except RunError String :=
  if res.returncode ≠ 0 then .error (.commandFailed command res.returncode)
  else .ok res.stdout

/-- ANSI escape removal (base.py:36, applied in `_run_gh_api_command_base`):
`_ansi_escape.sub("", s)`, where the pattern matches an ESC followed either
by one character in 0x40-0x5A or 0x5C-0x5F, or by a bracket, then zero or
more characters in 0x30-0x3F, then zero or more in 0x20-0x2F, then one in
0x40-0x7E.  The three classes of the bracketed form are pairwise disjoint,
so the regex matches greedily without backtracking; `fuel` only bounds the
recursion (each step consumes at least one character, so `fuel = length` is
exact). -/
def stripAnsiGo : Nat → List Char → List Char
  | 0, l => l
  | _ + 1, [] => []
  | fuel + 1, c :: rest =>
    if c = '\x1B' then
      match rest with
      | [] => [c]
      | d :: rest2 =>
        if (0x40 ≤ d.toNat ∧ d.toNat ≤ 0x5A) ∨ (0x5C ≤ d.toNat ∧ d.toNat ≤ 0x5F) then
          stripAnsiGo fuel rest2
        else if d = '[' then
          match (rest2.dropWhile (fun x => 0x30 ≤ x.toNat && x.toNat ≤ 0x3F)).dropWhile
              (fun x => 0x20 ≤ x.toNat && x.toNat ≤ 0x2F) with
          | e :: r3 =>
            if 0x40 ≤ e.toNat ∧ e.toNat ≤ 0x7E then stripAnsiGo fuel r3
            else c :: stripAnsiGo fuel rest
          | [] => c :: stripAnsiGo fuel rest
        else c :: stripAnsiGo fuel rest
    else c :: stripAnsiGo fuel rest

/-- `GitHubClassroomBase._ansi_escape.sub("", s)`. -/
def ansi_escape_sub (s : String) : String :=
  String.mk (stripAnsiGo s.data.length s.data)

/-- `GitHubClassroomBase._run_gh_api_command_base` (base.py:53-68): run the
`gh api` subprocess; on success strip ANSI escape codes from its stdout; on
`RuntimeError` log and re-raise `RuntimeError("Failed to run GitHub API
command.")`. -/
def run_gh_api_command_base (res : ProcResult) : Except RunError String :=
  match run_command_base "gh api" res with
  | .ok raw => .ok (ansi_escape_sub raw)
  | .error _ => .error .ghApiFailed

/-! ### assignment.py: remote paging -/

/-- The loop body iterations of `GitHubAssignment._get_page`
(assignment.py:173-191).  `env i` is the subprocess outcome of attempt `i`;
the second argument is the remaining iterations of `for _ in range(3)`.

The source intends `if output is not None: return output` /
`time.sleep(4)` / retry, but `_run_gh_api_command` *raises* on failure
instead of returning `None`, so a failed attempt propagates the exception
out of the loop at once; on a successful attempt the returned string is
never `None`, so the function returns it immediately.  The
sleep-and-retry continuation and the final `return None` are therefore
unreachable except when the loop bound is exhausted before any call. -/
def get_page_go (env : Nat → ProcResult) : Nat → Nat → Except RunError (Option String)
  | _, 0 => .ok none
  | i, _ + 1 =>
    match run_gh_api_command_base (env i) with
    | .ok output => .ok (some output)
    | .error e => .error e

/-- `GitHubAssignment._get_page`: up to 3 attempts starting at attempt 0. -/
def get_page (env : Nat → ProcResult) : Except RunError (Option String) :=
  get_page_go env 0 3

/-! ### assignment.py: change detection -/

/-- The per-submission test of `_get_changed_repos` (assignment.py:228-230):
`existing_row = commit_data_df.loc[df["student_repo_name"] == name]` and the
repo is changed when `existing_row.empty or existing_row.iloc[0]["commit_count"]
< new_commit_count`.  `List.find?` is the first matching row, i.e.
`iloc[0]`; `none` is `existing_row.empty`. -/
def repo_is_changed (commitData : List CommitRow) (sub : Submission) : Bool :=
  match commitData.find?
      (fun r => r.student_repo_name == shortName sub.repoFullName) with
  | none => true
  | some row => decide (row.commit_count < sub.commitCount)

/-- `GitHubAssignment._get_changed_repos` (assignment.py:216-233): the
source's `for` loop appends each changed submission to `changed_repos` in
input order, which is exactly this filter recursion.  The commit-data frame
is only read, never written: the embedding takes it as a value and returns
only the selected submissions. -/
def get_changed_repos (accepted : List Submission) (commitData : List CommitRow) :
    List Submission :=
  match accepted with
  | [] => []
  | sub :: rest =>
    if repo_is_changed commitData sub then sub :: get_changed_repos rest commitData
    else get_changed_repos rest commitData

/-! ### assignment.py: mirroring -/

/-- `GitHubAssignment._get_student_repo` (assignment.py:125-171): pull or
clone the repository (an exception from `_run_command` propagates), run
`git log -1 --format=%cd,%an --date=format-local:... src/assignment.lean`
(likewise), build the `new_row` dict with the repo name, login and the
submission's commit count, and — only when the log output is truthy
(non-empty) — the date, time and author unpacked from
`git_log_result.strip().split(",")` (a `ValueError` if not exactly three
fields). -/
def get_student_repo (sub : Submission) (env : RepoEnv) : Except RunError CommitRow :=
  match run_command_base (if env.localCopyExists then "git pull" else "git clone")
      env.mirrorProc with
  | .error e => .error e
  | .ok _ =>
    match run_command_base "git log" env.gitLogProc with
    | .error e => .error e
    | .ok git_log_result =>
      let new_row : CommitRow :=
        { student_repo_name := shortName sub.repoFullName
          login := sub.login
          commit_count := sub.commitCount
          last_commit_date := none
          last_commit_time := none
          last_commit_author := none }
      if git_log_result = "" then .ok new_row
      else
        match strSplitOn (strStrip git_log_result) ',' with
        | [d, t, a] =>
          .ok { new_row with
                  last_commit_date := some d
                  last_commit_time := some t
                  last_commit_author := some a }
        | _ => .error .valueError

/-- The result-collection loop of `get_student_repos` (assignment.py:251-260):
each changed submission is mirrored and its `new_row` appended to the
commit-data frame with `pd.concat([commit_data_df, pd.DataFrame([new_row])],
ignore_index=True)` — an unconditional append, with no lookup of an existing
row.  An exception raised by any `future.result()` propagates out of the
loop (modelled: the fold stops in `.error`), and since
`commit_data_df.to_csv` only runs after the loop, nothing is persisted in
that case. -/
def get_student_repos_go (env : String → RepoEnv) :
    List Submission → List CommitRow → Except RunError (List CommitRow)
  | [], df => .ok df
  | sub :: rest, df =>
    match get_student_repo sub (env (shortName sub.repoFullName)) with
    | .error e => .error e
    | .ok new_row => get_student_repos_go env rest (df ++ [new_row])

/-- `GitHubAssignment.get_student_repos` (assignment.py:235-265): read the
ledger, select the changed repositories, mirror each and append its row, and
return the frame written to `commit_data.csv`.  (`.error` = an uncaught
exception; the CSV is then not written.) -/
def get_student_repos (accepted : List Submission) (commitData : List CommitRow)
    (env : String → RepoEnv) : Except RunError (List CommitRow) :=
  get_student_repos_go env (get_changed_repos accepted commitData) commitData

/-! ### lean3/assignment.py: the verifier classification -/

/-- `GitHubAssignmentLean3._run_grading_command` (lean3/assignment.py:85-95):
run `lean .evaluate/evaluate.lean` with `check=False` — a non-zero exit
status raises nothing and is never inspected — take `result = ....stdout`,
and grade 100 when `"sorry" not in result and "error" not in result`, else
0.  `res` is the subprocess outcome of the verifier invocation for that
repository; only its `stdout` is read. -/
def run_grading_command (res : ProcResult) : Nat :=
  if !(strContains res.stdout "sorry") && !(strContains res.stdout "error") then 100
  else 0

/-- The classification rule as the specification words it ("the combined
textual output of the verifier command is scanned"): the text that the
spec says is scanned.  Stated from the spec's words, for comparison with
`run_grading_command`, which reads `stdout` only. -/
def combined_output_spec (res : ProcResult) : String :=
  res.stdout ++ res.stderr

/-! ### assignment.py: grading -/

/-- `GitHubAssignment._update_student_grade` (assignment.py:332-356): the
`new_row` dict, keys `github_username, grade, commit_count,
last_commit_date, last_commit_time, last_commit_author` taken from the
ledger row. -/
def update_student_grade (grade : Nat) (row : CommitRow) : NewGradeData :=
  { github_username := row.login
    grade := grade
    commit_count := row.commit_count
    last_commit_date := row.last_commit_date
    last_commit_time := row.last_commit_time
    last_commit_author := row.last_commit_author }

/-- `GitHubAssignment._grade_repo` (assignment.py:358-374): look up the
login in the grades frame (`existing_row`, first match); grade only when no
row exists or its `commit_count` is below the ledger row's; `verifier` maps
a repository name to the outcome of the verifier subprocess in that
repository's working copy.  Returns `none` for "nothing to do" (the
source's `return None`). -/
def grade_repo (verifier : String → ProcResult) (row : CommitRow)
    (df_grades : List GradeRow) : Option NewGradeData :=
  match df_grades.find? (fun g => g.github_username == row.login) with
  | none => some (update_student_grade
      (run_grading_command (verifier row.student_repo_name)) row)
  | some existing =>
    if existing.commit_count < row.commit_count then
      some (update_student_grade
        (run_grading_command (verifier row.student_repo_name)) row)
    else none

/-- Position of the first row satisfying `p` (pandas `existing_row.index[0]`
on a default `RangeIndex`: the label of the first matching row equals its
position). -/
def findIndex (p : α → Bool) : List α → Option Nat
  | [] => none
  | a :: l => if p a then some 0 else (findIndex p l).map (fun n => n + 1)

/-- Replace the row at position `i` by `f` of it (pandas
`df.at[existing_index, key] = value` for each key). -/
def updateAt : Nat → (α → α) → List α → List α
  | _, _, [] => []
  | 0, f, a :: l => f a :: l
  | i + 1, f, a :: l => a :: updateAt i f l

/-- The grade row appended for a fresh login (assignment.py:400-404):
`new_row["manual_grade"] = None; new_row["comment"] = None` then `pd.concat`. -/
def new_grade_row (new : NewGradeData) : GradeRow :=
  { github_username := new.github_username
    grade := new.grade
    commit_count := new.commit_count
    last_commit_date := new.last_commit_date
    last_commit_time := new.last_commit_time
    last_commit_author := new.last_commit_author
    manual_grade := none
    comment := none }

/-- The in-place update of an existing grade row (assignment.py:405-409):
`for key, value in new_row.items(): df_grades.at[existing_index, key] = value`
— exactly the six keys of `new_row` are written; `manual_grade` and
`comment` are not keys of `new_row` and keep their values. -/
def apply_new_row (new : NewGradeData) (g : GradeRow) : GradeRow :=
  { github_username := new.github_username
    grade := new.grade
    commit_count := new.commit_count
    last_commit_date := new.last_commit_date
    last_commit_time := new.last_commit_time
    last_commit_author := new.last_commit_author
    manual_grade := g.manual_grade
    comment := g.comment }

/-- One iteration of the result-collection loop of `run_autograding`
(assignment.py:395-410).  `df0` is the snapshot of the grades frame that was
passed to every `_grade_repo` future (all futures are submitted with the
frame as it was before the loop; `ProcessPoolExecutor` pickles it), from
which `existing_row` / `existing_index = existing_row.index[0]` were
computed; `df` is the frame being built up.  An append never removes rows,
so a position in `df0` is the same position in `df`. -/
def merge_grade_result (df0 df : List GradeRow) (new : NewGradeData) : List GradeRow :=
  match findIndex (fun g => g.github_username == new.github_username) df0 with
  | none => df ++ [new_grade_row new]
  | some i => updateAt i (apply_new_row new) df

/-- `GitHubAssignment.run_autograding` (assignment.py:376-414): read the
grades frame and the whole commit-data frame, submit `_grade_repo` for
*every* ledger row against the snapshot `df_grades`, then apply the non-`None`
results sequentially (modelled in ledger-row order, one admissible
`as_completed` order) and return the frame that `_save_grades` writes to
`grades.csv`. -/
def run_autograding (verifier : String → ProcResult) (commit_data : List CommitRow)
    (df_grades : List GradeRow) : List GradeRow :=
  List.foldl (fun df new => merge_grade_result df_grades df new) df_grades
    (commit_data.filterMap (fun row => grade_repo verifier row df_grades))

/-! ### assignment.py: the report -/

/-- The platform's automated placeholder identity (assignment.py:309). -/
def placeholderAuthor : String := "github-classroom[bot]"

/-- The filter `condition = df_grades["last_commit_author"] !=
"github-classroom[bot]"` (assignment.py:309).  pandas element-wise `!=`
against a string is `True` on `NaN`, which the `none` case of the derived
`BEq` reproduces. -/
def author_condition (g : GradeRow) : Bool :=
  g.last_commit_author != some placeholderAuthor

/-- The `final_grade` column (assignment.py:312-314): assigned only on rows
satisfying `condition`, as `row["manual_grade"] if pd.notna(row["manual_grade"])
else row["grade"]`; rows failing the condition keep `NaN` (`none`). -/
def derived_final_grade (g : GradeRow) : Option Nat :=
  if author_condition g then some (g.manual_grade.getD g.grade) else none

/-- One merged output row: a student row joined with a grade row on
`github_username`, after the `grade` and `manual_grade` columns were dropped
from the grades frame and `github_id`/`name` from the student frame. -/
def report_row (s : StudentRow) (g : GradeRow) : ReportRow :=
  { identifier := s.identifier
    github_username := g.github_username
    commit_count := g.commit_count
    last_commit_date := g.last_commit_date
    last_commit_time := g.last_commit_time
    last_commit_author := g.last_commit_author
    comment := g.comment
    final_grade := derived_final_grade g }

/-- `GitHubAssignment._save_grades` (assignment.py:299-330), the emitted
report: set `final_grade` on rows satisfying `condition`, drop the `grade`
and `manual_grade` columns, filter the student data to rows whose candidate
id is not `isna()`, and inner-merge it with `df_grades[condition]` on
`github_username` (left frame order outermost, as `pd.merge(..., how="inner")`
produces).  The persisted `grades.csv` (written before any of this) is the
input frame itself and is returned by `run_autograding`. -/
def save_grades (df_grades : List GradeRow) (students : List StudentRow) :
    List ReportRow :=
  (students.filter (fun s => s.candidate_id.isSome)).flatMap (fun s =>
    ((df_grades.filter author_condition).filter
        (fun g => g.github_username == s.github_username)).map
      (fun g => report_row s g))

/-! ### The composed pipeline (mirror, then grade)

`GitHubAssignment.autograde` runs `get_student_repos` and then
`run_autograding`; `run_autograding` re-reads the `commit_data.csv` that
`get_student_repos` has just written.  An exception from the mirroring
stage aborts before grading. -/

/-- One mirror-and-grade run over one assignment: the commit ledger and the
grade table before the run, the fetched submissions, and the subprocess
environments; returns the persisted ledger and grade table after the run. -/
def mirror_and_grade (verifier : String → ProcResult) (env : String → RepoEnv)
    (accepted : List Submission) (ledger : List CommitRow)
    (grades : List GradeRow) : Except RunError (List CommitRow × List GradeRow) :=
  match get_student_repos accepted ledger env with
  | .error e => .error e
  | .ok ledger2 => .ok (ledger2, run_autograding verifier ledger2 grades)

/-! ### Helper lemmas -/

/-- Unfolding `updateAt` on the empty list. -/
theorem updateAt_nil (i : Nat) (f : α → α) : updateAt i f [] = [] := by
  cases i <;> rfl

/-- Unfolding `updateAt` at position 0. -/
theorem updateAt_zero (f : α → α) (a : α) (l : List α) :
    updateAt 0 f (a :: l) = f a :: l := rfl

/-- Unfolding `updateAt` at a successor position. -/
theorem updateAt_succ (i : Nat) (f : α → α) (a : α) (l : List α) :
    updateAt (i + 1) f (a :: l) = a :: updateAt i f l := rfl

/-- `updateAt` keeps the number of rows. -/
theorem updateAt_length (i : Nat) (f : α → α) (l : List α) :
    (updateAt i f l).length = l.length := by
  induction l generalizing i with
  | nil => simp [updateAt_nil]
  | cons a l ih =>
    cases i with
    | zero => simp [updateAt_zero]
    | succ i => simpa [updateAt_succ] using ih i

/-- `updateAt` leaves every other position unchanged. -/
theorem getElem?_updateAt_ne (i j : Nat) (f : α → α) (l : List α) (h : j ≠ i) :
    (updateAt i f l)[j]? = l[j]? := by
  induction l generalizing i j with
  | nil => simp [updateAt_nil]
  | cons a l ih =>
    cases i with
    | zero =>
      cases j with
      | zero => exact absurd rfl h
      | succ j => simp [updateAt_zero]
    | succ i =>
      cases j with
      | zero => simp [updateAt_succ]
      | succ j =>
        simpa [updateAt_succ] using ih i j (fun hh => h (by rw [hh]))

/-- `updateAt` applies `f` at position `i`. -/
theorem getElem?_updateAt_self (i : Nat) (f : α → α) (l : List α) :
    (updateAt i f l)[i]? = l[i]?.map f := by
  induction l generalizing i with
  | nil => simp [updateAt_nil]
  | cons a l ih =>
    cases i with
    | zero => simp [updateAt_zero]
    | succ i => simpa [updateAt_succ] using ih i

/-- The boolean author filter holds exactly on rows whose author is not the
placeholder identity (a missing author, `none`, passes the filter). -/
theorem author_condition_iff (g : GradeRow) :
    author_condition g = true ↔ g.last_commit_author ≠ some placeholderAuthor := by
  unfold author_condition
  simp [bne_iff_ne]

/-- Membership in the change detector's output, in terms of the boolean
per-submission test. -/
theorem mem_get_changed_repos (accepted : List Submission) (commitData : List CommitRow)
    (sub : Submission) :
    sub ∈ get_changed_repos accepted commitData ↔
      sub ∈ accepted ∧ repo_is_changed commitData sub = true := by
  induction accepted with
  | nil => simp [get_changed_repos]
  | cons a rest ih =>
    by_cases hsub : sub = a
    · subst hsub
      by_cases h : repo_is_changed commitData sub <;>
        simp [get_changed_repos, h, ih]
    · by_cases h : repo_is_changed commitData a <;>
        simp [get_changed_repos, h, ih, hsub]

/-- The boolean per-submission test, unfolded to the ledger lookup. -/
theorem repo_is_changed_iff (commitData : List CommitRow) (sub : Submission) :
    repo_is_changed commitData sub = true ↔
      (commitData.find?
          (fun r => r.student_repo_name == shortName sub.repoFullName) = none ∨
        ∃ row, commitData.find?
            (fun r => r.student_repo_name == shortName sub.repoFullName) = some row ∧
          row.commit_count < sub.commitCount) := by
  unfold repo_is_changed
  cases hf : commitData.find?
      (fun r => r.student_repo_name == shortName sub.repoFullName) with
  | none => simp
  | some row => simp [hf]

/-! ### C2: manual-override preservation in the grade merge -/

/-- C2.  Merging one freshly computed grade (`new`) into the grade table:
if the snapshot `df0` has no row for the login, the row appended to the
current frame `df` has `manual_grade` and `comment` unset (`none`); if the
snapshot's first row for the login is at position `i`, only that position of
`df` changes, and it keeps its `manual_grade` and `comment` while the
`grade`, `commit_count` and last-commit date/time/author (and the key
column, rewritten with the same login) take the fresh values.  A non-null
manual override or comment is therefore never overwritten by the automated
merge. -/
theorem C2_override_preservation (df0 df : List GradeRow) (new : NewGradeData) :
    (findIndex (fun g => g.github_username == new.github_username) df0 = none →
      merge_grade_result df0 df new = df ++ [new_grade_row new] ∧
      (new_grade_row new).manual_grade = none ∧ (new_grade_row new).comment = none) ∧
    (∀ i, findIndex (fun g => g.github_username == new.github_username) df0 = some i →
      (merge_grade_result df0 df new).length = df.length ∧
      (∀ j, j ≠ i → (merge_grade_result df0 df new)[j]? = df[j]?) ∧
      (∀ g, df[i]? = some g →
        (merge_grade_result df0 df new)[i]? = some
          { github_username := new.github_username
            grade := new.grade
            commit_count := new.commit_count
            last_commit_date := new.last_commit_date
            last_commit_time := new.last_commit_time
            last_commit_author := new.last_commit_author
            manual_grade := g.manual_grade
            comment := g.comment })) := by
  constructor
  · intro h
    exact ⟨by simp [merge_grade_result, h], rfl, rfl⟩
  · intro i h
    refine ⟨?_, ?_, ?_⟩
    · simp [merge_grade_result, h, updateAt_length]
    · intro j hj
      simp [merge_grade_result, h, getElem?_updateAt_ne i j _ _ hj]
    · intro g hg
      simp [merge_grade_result, h, getElem?_updateAt_self, hg, apply_new_row]

/-- C2, witnessed at the specification's own scenario: alice's row holds
grade 0 at commit count 1 with manual grade 90 and comment "late"; a fresh
grade of 100 at commit count 3 is merged; the result keeps the manual grade
and comment and refreshes the rest. -/
theorem C2_override_preservation_witness :
    (merge_grade_result
        [{ github_username := "alice", grade := 0, commit_count := 1,
           last_commit_date := none, last_commit_time := none,
           last_commit_author := none, manual_grade := some 90,
           comment := some "late" }]
        [{ github_username := "alice", grade := 0, commit_count := 1,
           last_commit_date := none, last_commit_time := none,
           last_commit_author := none, manual_grade := some 90,
           comment := some "late" }]
        { github_username := "alice", grade := 100, commit_count := 3,
          last_commit_date := some "02/01/24", last_commit_time := some "10:00:00",
          last_commit_author := some "Alice Smith" })[0]? = some
      { github_username := "alice", grade := 100, commit_count := 3,
        last_commit_date := some "02/01/24", last_commit_time := some "10:00:00",
        last_commit_author := some "Alice Smith", manual_grade := some 90,
        comment := some "late" } := by
  have h := (C2_override_preservation
    [{ github_username := "alice", grade := 0, commit_count := 1,
       last_commit_date := none, last_commit_time := none,
       last_commit_author := none, manual_grade := some 90,
       comment := some "late" }]
    [{ github_username := "alice", grade := 0, commit_count := 1,
       last_commit_date := none, last_commit_time := none,
       last_commit_author := none, manual_grade := some 90,
       comment := some "late" }]
    { github_username := "alice", grade := 100, commit_count := 3,
      last_commit_date := some "02/01/24", last_commit_time := some "10:00:00",
      last_commit_author := some "Alice Smith" }).2 0 (by decide)
  exact h.2.2 _ rfl

/-! ### C3: the change detector is an exact, pure comparison -/

/-- C3.  A fetched submission is selected by the change detector exactly
when it is among the fetched records and its repository is either absent
from the commit ledger (no row matches its short name) or the first
matching ledger row records a commit count strictly below the submission's;
in particular a submission whose commit count equals the ledger's is not
selected.  The comparison only reads the ledger: `get_changed_repos` is a
pure function of the ledger value and returns a selection of its first
argument, so the ledger snapshot is unchanged by construction. -/
theorem C3_change_detector_exact (accepted : List Submission)
    (commitData : List CommitRow) (sub : Submission) :
    (sub ∈ get_changed_repos accepted commitData ↔
      sub ∈ accepted ∧
        (commitData.find?
            (fun r => r.student_repo_name == shortName sub.repoFullName) = none ∨
          ∃ row, commitData.find?
              (fun r => r.student_repo_name == shortName sub.repoFullName) = some row ∧
            row.commit_count < sub.commitCount)) ∧
    (∀ row, commitData.find?
          (fun r => r.student_repo_name == shortName sub.repoFullName) = some row →
      row.commit_count = sub.commitCount →
      sub ∉ get_changed_repos accepted commitData) := by
  constructor
  · rw [mem_get_changed_repos, repo_is_changed_iff]
  · intro row hf heq hmem
    rcases (mem_get_changed_repos accepted commitData sub).mp hmem with ⟨-, hch⟩
    rcases (repo_is_changed_iff commitData sub).mp hch with h | ⟨row', hf', hlt⟩
    · rw [h] at hf
      cases hf
    · rw [hf] at hf'
      cases hf'
      omega

/-- C3, witnessed at the specification's own scenario: the ledger knows
`repoA` at commit count 2; the fresh data reports `repoA` at count 2 and
`repoB` at count 1; only `repoB` is selected. -/
theorem C3_change_detector_witness :
    { repoFullName := "org/repoB", login := "bob", commitCount := 1 : Submission } ∈
      get_changed_repos
        [{ repoFullName := "org/repoA", login := "alice", commitCount := 2 },
          { repoFullName := "org/repoB", login := "bob", commitCount := 1 }]
        [{ student_repo_name := "repoA", login := "alice", commit_count := 2,
           last_commit_date := none, last_commit_time := none,
           last_commit_author := none }] ∧
    { repoFullName := "org/repoA", login := "alice", commitCount := 2 : Submission } ∉
      get_changed_repos
        [{ repoFullName := "org/repoA", login := "alice", commitCount := 2 },
          { repoFullName := "org/repoB", login := "bob", commitCount := 1 }]
        [{ student_repo_name := "repoA", login := "alice", commit_count := 2,
           last_commit_date := none, last_commit_time := none,
           last_commit_author := none }] := by
  constructor
  · exact (C3_change_detector_exact _ _ _).1.mpr ⟨by decide, Or.inl (by decide)⟩
  · exact (C3_change_detector_exact _ _ _).2
      { student_repo_name := "repoA", login := "alice", commit_count := 2,
        last_commit_date := none, last_commit_time := none,
        last_commit_author := none } (by decide) rfl

/-! ### C7: the grade classification rule -/

/-- C7, counterexample to the claim as stated.  The claim says the *combined*
textual output of the verifier is scanned; the source scans only
`result = subprocess.run(...).stdout`.  For an invocation whose stdout is
empty but whose stderr carries the marker "error", the combined output
contains a marker — so the claim's rule demands grade 0 — yet the code
grades 100. -/
theorem C7_combined_output_counterexample :
    run_grading_command { returncode := 0, stdout := "", stderr := "error" } = 100 ∧
    strContains
      (combined_output_spec { returncode := 0, stdout := "", stderr := "error" })
      "error" = true :=
  ⟨rfl, rfl⟩

/-- C7, amended: the *standard output* of the verifier command is scanned
for the two literal markers "sorry" and "error"; the computed grade is
always 100 or 0, and it is 100 exactly when neither marker occurs anywhere
in the standard output, regardless of any other content (the exit status
and stderr are not consulted). -/
theorem C7_grade_classification (res : ProcResult) :
    (run_grading_command res = 100 ∨ run_grading_command res = 0) ∧
    (run_grading_command res = 100 ↔
      (strContains res.stdout "sorry" = false ∧
        strContains res.stdout "error" = false)) := by
  by_cases h1 : strContains res.stdout "sorry" <;>
    by_cases h2 : strContains res.stdout "error" <;>
      simp [run_grading_command, h1, h2]

/-! ### C6: paging retry-then-degrade -/

/-- C6.  The loop of `_get_page` was written against the documented contract
of `_run_command` ("Returns None on error or the stdout"): retry up to 3
attempts, sleep 4 seconds between them, and finally `return None`.  But the
helper *raises* `RuntimeError` instead of returning `None`, so the very
first failed attempt propagates the exception out of `_get_page`: here, with
every attempt's `gh api` subprocess exiting with return code 1, `get_page`
evaluates to the raised `RuntimeError("Failed to run GitHub API command.")`
— not to the page-unavailable value `.ok none` the claim (and the source's
own `return None` line) describes, and without consulting any attempt
beyond the first. -/
theorem C6_get_page_raises_without_retry :
    get_page (fun _ => { returncode := 1, stdout := "", stderr := "" }) =
      .error .ghApiFailed :=
  rfl

/-! ### C5: verifier-failure handling in the grading stage -/

/-- C5, counterexample to the claim as stated.  The ledger knows `repoA`
for alice at commit count 3; her grade row records grade 0 at commit
count 1.  The verifier invocation *fails* (exit status 1, no output), yet
the grading stage does not skip the repository: `_run_grading_command` runs
with `check=False`, never looks at the exit status, classifies the empty
captured stdout (no marker → 100), and the merge rewrites alice's row —
the previous grade row is *not* left unchanged. -/
theorem C5_failed_verifier_still_grades :
    run_autograding (fun _ => { returncode := 1, stdout := "", stderr := "" })
        [{ student_repo_name := "repoA", login := "alice", commit_count := 3,
           last_commit_date := some "02/01/24", last_commit_time := some "10:00:00",
           last_commit_author := some "Alice Smith" }]
        [{ github_username := "alice", grade := 0, commit_count := 1,
           last_commit_date := none, last_commit_time := none,
           last_commit_author := none, manual_grade := none, comment := none }] =
      [{ github_username := "alice", grade := 100, commit_count := 3,
         last_commit_date := some "02/01/24", last_commit_time := some "10:00:00",
         last_commit_author := some "Alice Smith", manual_grade := none,
         comment := none }] ∧
    ({ github_username := "alice", grade := 100, commit_count := 3,
       last_commit_date := some "02/01/24", last_commit_time := some "10:00:00",
       last_commit_author := some "Alice Smith", manual_grade := none,
       comment := none } : GradeRow) ≠
      { github_username := "alice", grade := 0, commit_count := 1,
        last_commit_date := none, last_commit_time := none,
        last_commit_author := none, manual_grade := none, comment := none } :=
  ⟨rfl, by decide⟩

/-- C5, amended: a verifier invocation's exit status (and stderr) has no
effect on the grading run.  A non-zero exit does not cause the repository
to be skipped: the grade is computed from the captured standard output by
the marker rule exactly as for a successful invocation, and the login's
grade row is inserted or updated accordingly — two verifier environments
with the same standard outputs produce identical grade tables. -/
theorem C5_exit_status_ignored (v v' : String → ProcResult)
    (h : ∀ name, (v name).stdout = (v' name).stdout)
    (commit_data : List CommitRow) (df_grades : List GradeRow) :
    run_autograding v commit_data df_grades =
      run_autograding v' commit_data df_grades := by
  have hgrade : ∀ name, run_grading_command (v name) = run_grading_command (v' name) := by
    intro name
    unfold run_grading_command
    rw [h name]
  have hrepo : (fun row => grade_repo v row df_grades) =
      (fun row => grade_repo v' row df_grades) := by
    funext row
    unfold grade_repo
    rw [hgrade row.student_repo_name]
  unfold run_autograding
  rw [hrepo]

/-- C5 amended, witnessed: a failing verifier (exit 1) and a succeeding one
(exit 0) with the same empty stdout grade alice's repository identically. -/
theorem C5_exit_status_ignored_witness :
    run_autograding (fun _ => { returncode := 1, stdout := "", stderr := "boom" })
        [{ student_repo_name := "repoA", login := "alice", commit_count := 3,
           last_commit_date := some "02/01/24", last_commit_time := some "10:00:00",
           last_commit_author := some "Alice Smith" }]
        [{ github_username := "alice", grade := 0, commit_count := 1,
           last_commit_date := none, last_commit_time := none,
           last_commit_author := none, manual_grade := none, comment := none }] =
      run_autograding (fun _ => { returncode := 0, stdout := "", stderr := "" })
        [{ student_repo_name := "repoA", login := "alice", commit_count := 3,
           last_commit_date := some "02/01/24", last_commit_time := some "10:00:00",
           last_commit_author := some "Alice Smith" }]
        [{ github_username := "alice", grade := 0, commit_count := 1,
           last_commit_date := none, last_commit_time := none,
           last_commit_author := none, manual_grade := none, comment := none }] :=
  C5_exit_status_ignored _ _ (fun _ => rfl) _ _

/-! ### A concrete mirroring scenario

One repository `org/repoA` of student alice, already present in the commit
ledger at commit count 1, now reported by the remote platform at commit
count 2.  Mirroring succeeds; the verifier's output is clean.  These values
instantiate the mirroring and pipeline theorems below. -/

/-- The remote submission record: `repoA` at commit count 2. -/
def subA : Submission :=
  { repoFullName := "org/repoA", login := "alice", commitCount := 2 }

/-- The pre-existing ledger row: `repoA` last mirrored at commit count 1. -/
def rowA1 : CommitRow :=
  { student_repo_name := "repoA", login := "alice", commit_count := 1,
    last_commit_date := some "01/01/24", last_commit_time := some "09:00:00",
    last_commit_author := some "Alice Smith" }

/-- The ledger row the new mirror produces: count 2, fresh `git log` data. -/
def rowA2 : CommitRow :=
  { student_repo_name := "repoA", login := "alice", commit_count := 2,
    last_commit_date := some "02/01/24", last_commit_time := some "10:00:00",
    last_commit_author := some "Alice Smith" }

/-- Subprocess environment: the local copy exists, `git pull` succeeds, and
`git log` reports the commit of 02/01/24. -/
def envA : String → RepoEnv := fun _ =>
  { localCopyExists := true,
    mirrorProc := { returncode := 0, stdout := "Already up to date.\n", stderr := "" },
    gitLogProc :=
      { returncode := 0, stdout := "02/01/24,10:00:00,Alice Smith\n", stderr := "" } }

/-- A verifier whose output is clean (exit 0, empty output): grade 100. -/
def verifOK : String → ProcResult := fun _ =>
  { returncode := 0, stdout := "", stderr := "" }

/-- The ledger after the first run: the stale row *and* the appended row. -/
def ledgerAfterRun1 : List CommitRow := [rowA1, rowA2]

/-- The ledger after the second run: yet another copy of the count-2 row. -/
def ledgerAfterRun2 : List CommitRow := [rowA1, rowA2, rowA2]

/-- Grade row computed from the stale count-1 ledger row in the first run. -/
def gradeRowCount1 : GradeRow :=
  { github_username := "alice", grade := 100, commit_count := 1,
    last_commit_date := some "01/01/24", last_commit_time := some "09:00:00",
    last_commit_author := some "Alice Smith", manual_grade := none, comment := none }

/-- Grade row computed from the count-2 ledger row. -/
def gradeRowCount2 : GradeRow :=
  { github_username := "alice", grade := 100, commit_count := 2,
    last_commit_date := some "02/01/24", last_commit_time := some "10:00:00",
    last_commit_author := some "Alice Smith", manual_grade := none, comment := none }

/-- The grade table after the first run (both ledger rows were graded
against the empty snapshot, so both results were appended). -/
def gradesAfterRun1 : List GradeRow := [gradeRowCount1, gradeRowCount2]

/-- The grade table after the second run (the first row was rewritten). -/
def gradesAfterRun2 : List GradeRow := [gradeRowCount2, gradeRowCount2]

/-! ### C9: ledger key uniqueness -/

/-- C9.  Mirroring an already-known repository whose remote count advanced
does not update its ledger row in place: `get_student_repos` appends the
fresh row with `pd.concat`, so the persisted ledger now holds *two* rows
with the same `student_repo_name` key — the stale count-1 row first and the
count-2 row after it — violating the one-row-per-repository invariant the
claim states. -/
theorem C9_remirror_appends_duplicate_key :
    get_student_repos [subA] [rowA1] envA = .ok [rowA1, rowA2] ∧
    rowA1.student_repo_name = rowA2.student_repo_name ∧
    rowA1 ≠ rowA2 :=
  ⟨rfl, rfl, by decide⟩

/-! ### C1: idempotence of the mirror-and-grade pipeline -/

/-- C1.  Two successive pipeline runs against the *same* remote submission
records (`repoA` at commit count 2).  The first run succeeds and persists
`ledgerAfterRun1` / `gradesAfterRun1`.  The second run is *not* the
identity: the change detector selects `repoA` again (it reads the first
matching ledger row, which is the stale count-1 row the append-instead-of-
update left in front), the ledger grows by another duplicate row, and the
grade table changes too (its stale count-1 row is rewritten) — contradicting
the claimed idempotence. -/
theorem C1_second_run_changes_state :
    mirror_and_grade verifOK envA [subA] [rowA1] [] =
      .ok (ledgerAfterRun1, gradesAfterRun1) ∧
    mirror_and_grade verifOK envA [subA] ledgerAfterRun1 gradesAfterRun1 =
      .ok (ledgerAfterRun2, gradesAfterRun2) ∧
    get_changed_repos [subA] ledgerAfterRun1 = [subA] ∧
    ledgerAfterRun2 ≠ ledgerAfterRun1 ∧
    gradesAfterRun2 ≠ gradesAfterRun1 :=
  ⟨rfl, rfl, rfl, by decide, by decide⟩

/-! ### C4: partial-failure isolation in the mirroring stage -/

/-- C4.  A batch of two new repositories: `repoF`'s `git clone` exits with
return code 128 (a network failure), `repoB`'s mirror and `git log` succeed.
`_run_command` raises `RuntimeError` (despite its docstring "Returns None
on error"), the exception propagates through `future.result()` in
`get_student_repos`, and the function aborts before `commit_data_df.to_csv`
— so the whole run of the mirroring stage fails and *no* repository's
ledger update is persisted, not even sibling `repoB`'s: the failure is
fatal, and the sibling's completed mirror work is discarded rather than
applied. -/
theorem C4_mirror_failure_aborts_stage :
    get_student_repos
        [{ repoFullName := "org/repoF", login := "frank", commitCount := 1 },
          { repoFullName := "org/repoB", login := "bob", commitCount := 1 }]
        []
        (fun name =>
          if name == "repoF" then
            { localCopyExists := false,
              mirrorProc :=
                { returncode := 128, stdout := "",
                  stderr := "fatal: unable to access remote" },
              gitLogProc := { returncode := 0, stdout := "", stderr := "" } }
          else
            { localCopyExists := false,
              mirrorProc := { returncode := 0, stdout := "", stderr := "" },
              gitLogProc :=
                { returncode := 0, stdout := "03/01/24,11:00:00,Bob Jones\n",
                  stderr := "" } }) =
      .error (.commandFailed "git clone" 128) :=
  rfl

/-! ### C8: report derivation and placeholder exclusion -/

/-- C8.  (i) Every grade row passing the author filter (author not the
placeholder identity) gets `final_grade` = the manual override when present,
else the automatic grade.  (ii) A row whose last-commit author *is* the
placeholder identity is excluded from the final-grade computation (its
`final_grade` column stays unset).  (iii) Every row of the emitted report
has a non-placeholder author and carries the final grade derived in this
way from a grade-table row of its login. -/
theorem C8_final_grade_and_exclusion :
    (∀ g : GradeRow, author_condition g = true →
      derived_final_grade g = some (g.manual_grade.getD g.grade)) ∧
    (∀ g : GradeRow, g.last_commit_author = some placeholderAuthor →
      derived_final_grade g = none) ∧
    (∀ (df : List GradeRow) (st : List StudentRow) (r : ReportRow),
      r ∈ save_grades df st →
      r.last_commit_author ≠ some placeholderAuthor ∧
      ∃ g, g ∈ df ∧ g.github_username = r.github_username ∧
        r.final_grade = derived_final_grade g ∧
        r.final_grade = some (g.manual_grade.getD g.grade)) := by
  refine ⟨?_, ?_, ?_⟩
  · intro g h
    simp [derived_final_grade, h]
  · intro g h
    simp [derived_final_grade, author_condition, h]
  · intro df st r hr
    unfold save_grades at hr
    rw [List.mem_flatMap] at hr
    obtain ⟨s, -, hr⟩ := hr
    rw [List.mem_map] at hr
    obtain ⟨g, hg, hgr⟩ := hr
    rw [List.mem_filter] at hg
    obtain ⟨hg, -⟩ := hg
    rw [List.mem_filter] at hg
    obtain ⟨hgdf, hcond⟩ := hg
    subst hgr
    have hne : g.last_commit_author ≠ some placeholderAuthor :=
      (author_condition_iff g).mp hcond
    refine ⟨hne, g, hgdf, rfl, rfl, ?_⟩
    simp [report_row, derived_final_grade, hcond]

/-! ### C10: a missing last-commit author counts as a genuine submission -/

/-- C10.  (i) When the mirror succeeds but the `git log` inspection of the
tracked file path produces empty output, the ledger row is written without
date/time/author — the author is `none` (pandas `NaN`).  (ii) A grade row
whose author is `none` passes the author filter (pandas `NaN !=
"github-classroom[bot]"` is `True`) and receives the derived final grade,
override-else-automatic.  (iii) Such a row is joined into the emitted
report whenever the roster has a matching row (non-null candidate id, same
login) — it is treated as a genuine submission, not excluded. -/
theorem C10_null_author_is_genuine_submission :
    (∀ (sub : Submission) (env : RepoEnv), env.mirrorProc.returncode = 0 →
      env.gitLogProc.returncode = 0 → env.gitLogProc.stdout = "" →
      get_student_repo sub env = .ok
        { student_repo_name := shortName sub.repoFullName, login := sub.login,
          commit_count := sub.commitCount, last_commit_date := none,
          last_commit_time := none, last_commit_author := none }) ∧
    (∀ g : GradeRow, g.last_commit_author = none →
      author_condition g = true ∧
      derived_final_grade g = some (g.manual_grade.getD g.grade)) ∧
    (∀ (df : List GradeRow) (st : List StudentRow) (g : GradeRow) (s : StudentRow),
      g ∈ df → s ∈ st → g.last_commit_author = none →
      s.candidate_id.isSome = true → g.github_username = s.github_username →
      report_row s g ∈ save_grades df st) := by
  refine ⟨?_, ?_, ?_⟩
  · intro sub env h1 h2 h3
    simp [get_student_repo, run_command_base, h1, h2, h3]
  · intro g h
    constructor
    · simp [author_condition, h, placeholderAuthor]
    · simp [derived_final_grade, author_condition, h, placeholderAuthor]
  · intro df st g s hg hs hauthor hcand husr
    unfold save_grades
    rw [List.mem_flatMap]
    refine ⟨s, List.mem_filter.mpr ⟨hs, hcand⟩, ?_⟩
    rw [List.mem_map]
    refine ⟨g, ?_, rfl⟩
    rw [List.mem_filter]
    refine ⟨List.mem_filter.mpr ⟨hg, ?_⟩, ?_⟩
    · simp [author_condition, hauthor, placeholderAuthor]
    · simp [husr]

/-- C10, witnessed: carol's mirror succeeds with empty `git log` output for
the tracked path; her ledger row has no author; her grade row (grade 100,
no manual override) passes the filter, derives final grade 100, and joins
the report with her roster row. -/
theorem C10_null_author_witness :
    get_student_repo
        { repoFullName := "org/repoC", login := "carol", commitCount := 1 }
        { localCopyExists := false,
          mirrorProc := { returncode := 0, stdout := "", stderr := "" },
          gitLogProc := { returncode := 0, stdout := "", stderr := "" } } = .ok
      { student_repo_name := "repoC", login := "carol", commit_count := 1,
        last_commit_date := none, last_commit_time := none,
        last_commit_author := none } ∧
    report_row
        { identifier := "X1", github_username := "carol", candidate_id := some "123" }
        { github_username := "carol", grade := 100, commit_count := 1,
          last_commit_date := none, last_commit_time := none,
          last_commit_author := none, manual_grade := none, comment := none } ∈
      save_grades
        [{ github_username := "carol", grade := 100, commit_count := 1,
           last_commit_date := none, last_commit_time := none,
           last_commit_author := none, manual_grade := none, comment := none }]
        [{ identifier := "X1", github_username := "carol", candidate_id := some "123" }] := by
  constructor
  · exact C10_null_author_is_genuine_submission.1
      { repoFullName := "org/repoC", login := "carol", commitCount := 1 }
      { localCopyExists := false,
        mirrorProc := { returncode := 0, stdout := "", stderr := "" },
        gitLogProc := { returncode := 0, stdout := "", stderr := "" } }
      rfl rfl rfl
  · exact C10_null_author_is_genuine_submission.2.2 _ _ _ _
      (List.mem_singleton.mpr rfl) (List.mem_singleton.mpr rfl) rfl rfl rfl
